import Mathlib

/-!
# Verification of the psst client-side data layer

A shallow embedding of the request/retry/pagination/caching policy layer of
the psst GUI client, together with theorems checking the natural-language
specification of that layer against the embedded code.

Embedded source files:
* `src/psst-gui/src/webapi/client.rs` — `WebApi::with_retry`,
  `WebApi::load_all_pages`, `WebApi::load_cached`;
* `src/psst-gui/src/delegate.rs` — the dispatch coordinator
  (`Delegate::command_playlist`, `command_library`, `command_album`,
  `command_artist`, `command_search`, `command_image`, `Delegate::new`);
* `src/psst-gui/src/ui/track.rs` — `popularity_stars`.

Components whose Rust source is not among the provided files (the `Promise`
async cell, the `WebApiCache` disk cache, the `lru_cache` memory cache, the
optimistic save/unsave mutators on `State`) are modelled from the spec; each
such definition carries a doc comment starting `Modelled from the spec:`.
-/

deriving instance DecidableEq for Except

namespace Psst

/-- The single normalized error value of the layer (`error.rs`, `Error::WebApiError`):
every failure is carried as a human-readable message. -/
structure Error where
  message : String
deriving DecidableEq

/-! ## IEEE-754 binary32 model, for `popularity_stars` (`ui/track.rs:292-307`)

`popularity_stars` computes with Rust `f32`.  All values arising for
popularity inputs in `0..=130` are nonnegative normal floats or zero, so it
suffices to model round-to-nearest-even on the 24-bit significand of
nonnegative rationals.  A nonnegative `f32` value is represented exactly as
a dyadic `m / 2 ^ k` with `m k : Nat`; rationals are passed as
numerator/denominator pairs so that every step is kernel-computable `Nat`
arithmetic. -/

/-- A nonnegative binary32 value, exactly: the rational `m / 2 ^ k`. -/
structure F32 where
  m : Nat
  k : Nat
deriving DecidableEq

/-- The rational value a nonnegative `F32` stands for. -/
def F32.val (x : F32) : ℚ := (x.m : ℚ) / 2 ^ x.k

/-- Bit length of a natural number, by fuel recursion so that the kernel can
evaluate it (the fuel `m` is ample: the recursion depth is at most
`log2 m + 1 ≤ m` for `m ≥ 1`). -/
def bitlenGo : Nat → Nat → Nat
  | 0, _ => 0
  | fuel + 1, m => if m = 0 then 0 else bitlenGo fuel (m / 2) + 1

/-- `bitlen 0 = 0`, and `bitlen m = ⌊log2 m⌋ + 1` for `m ≥ 1`. -/
def bitlen (m : Nat) : Nat := bitlenGo m m

/-- Round `x / y` (with `y > 0`) to the nearest natural number, ties to even:
IEEE-754 default rounding of a nonnegative significand. -/
def rnearestEven (x y : Nat) : Nat :=
  let n := x / y
  let r := x % y
  if 2 * r < y then n
  else if y < 2 * r then n + 1
  else if n % 2 = 0 then n else n + 1

/-- The `f32` nearest to the nonnegative rational `a / b` (for `b > 0`, in
the normal range): the significand `(a / b) / 2 ^ (e - 23)` — where
`e = ⌊log2 (a / b)⌋`, so `2 ^ e ≤ a / b < 2 ^ (e + 1)` — is rounded to the
nearest integer, ties to even. -/
def roundF32 (a b : Nat) : F32 :=
  if a = 0 then ⟨0, 0⟩
  else if b ≤ a then
    let e := bitlen (a / b) - 1
    if e ≤ 23 then ⟨rnearestEven (a * 2 ^ (23 - e)) b, 23 - e⟩
    else ⟨rnearestEven a (b * 2 ^ (e - 23)) * 2 ^ (e - 23), 0⟩
  else
    let c := (b + a - 1) / a
    let ce := if c ≤ 1 then 0 else bitlen (c - 1)
    ⟨rnearestEven (a * 2 ^ (23 + ce)) b, 23 + ce⟩

/-- Rust `as f32` on a small unsigned integer (exact for values below
`2 ^ 24`; rounded to nearest above, as the cast specifies). -/
def natToF32 (n : Nat) : F32 := roundF32 n 1

/-- IEEE-754 `f32` division: the exact quotient, rounded. -/
def divF32 (x y : F32) : F32 := roundF32 (x.m * 2 ^ y.k) (y.m * 2 ^ x.k)

/-- IEEE-754 `f32` multiplication: the exact product, rounded. -/
def mulF32 (x y : F32) : F32 := roundF32 (x.m * y.m) (2 ^ (x.k + y.k))

/-- `f32::round` (round half away from zero — here all values are
nonnegative, so round half up) followed by `as usize` (exact: the rounded
value is a small integral float). -/
def f32RoundToNat (x : F32) : Nat :=
  let p := 2 ^ x.k
  let n := x.m / p
  let r := x.m % p
  if p ≤ 2 * r then n + 1 else n

/-- The filled-star count of `popularity_stars` (`ui/track.rs:295-296`):
`(COUNT as f32 * (popularity as f32 / 100.0)).round() as usize`, with
`COUNT = 5`. -/
def popularCount (popularity : Nat) : Nat :=
  let popularity_coef := divF32 (natToF32 popularity) (natToF32 100)
  f32RoundToNat (mulF32 (natToF32 5) popularity_coef)

/-- `popularity_stars` (`ui/track.rs:292-307`): `popular` filled stars
followed by `COUNT - popular` hollow ones.  The source subtracts in `usize`,
which underflows when `popular > COUNT`; `Nat` subtraction agrees with it
whenever `popular ≤ COUNT`. -/
def popularity_stars (popularity : Nat) : String :=
  let COUNT : Nat := 5
  let popular : Nat := popularCount popularity
  let unpopular : Nat := COUNT - popular
  ⟨List.replicate popular '★' ++ List.replicate unpopular '☆'⟩

/-! ## The Async Cell (`Promise`) and the dispatch coordinator handlers -/

/-- Modelled from the spec: the Async Cell (`Promise` in the GUI data layer,
whose source file is not among the provided files).  A per-logical-key state
holder with states `Empty`, `Pending(K)`, `Resolved(V)`, `Rejected(K, Error)`
(spec §3); `K` is the identity of the request that owns the pending or
rejected state. -/
inductive Promise (K V : Type) where
  | empty
  | deferred (k : K)
  | resolved (v : V)
  | rejected (k : K) (e : Error)
deriving DecidableEq

/-- Modelled from the spec: `defer(identity)` unconditionally sets the state
to `Pending(identity)`, discarding any prior state (spec §4.1). -/
def Promise.defer (_ : Promise K V) (k : K) : Promise K V := .deferred k

/-- Modelled from the spec: `is_pending_for(identity)` / `is_deferred` is
true iff the current state is `Pending(identity)`, identity compared by value
equality (spec §4.1). -/
def Promise.isDeferred [DecidableEq K] : Promise K V → K → Bool
  | .deferred k2, k => decide (k = k2)
  | _, _ => false

/-- Modelled from the spec: the cell is in its initial `Empty` state. -/
def Promise.isEmpty : Promise K V → Bool
  | .empty => true
  | _ => false

/-- Modelled from the spec: the cell holds a `Rejected` state. -/
def Promise.isRejected : Promise K V → Bool
  | .rejected _ _ => true
  | _ => false

/-- Modelled from the spec: `resolve(value)` / `reject(error)` transition the
cell to `Resolved(value)` / `Rejected(identity, error)` (spec §4.1);
`resolve_or_reject` applies a completion `Result` accordingly.  The
operations themselves do not gate on identity — dropping completions for
superseded identities is the calling handler's duty (spec §4.1).  The
identity recorded by a rejection is the one of the pending state being
rejected (when the cell is not pending, an existing rejected identity is
kept and an `Empty`/`Resolved` cell is left as it is on an error result; the
design forbids those calls). -/
def Promise.resolveOrReject : Promise K V → Except Error V → Promise K V
  | _, .ok v => .resolved v
  | .deferred k, .error e => .rejected k e
  | .rejected k _, .error e => .rejected k e
  | p, .error _ => p

/-- Modelled from the spec: `resolve(value)` alone (spec §4.1), as used by the
`UPDATE_SAVED_TRACKS` / `UPDATE_SAVED_ALBUMS` handlers. -/
def Promise.resolve (_ : Promise K V) (v : V) : Promise K V := .resolved v

/-- Modelled from the spec: `reject(error)` alone (spec §4.1), as used by the
`UPDATE_SAVED_TRACKS` / `UPDATE_SAVED_ALBUMS` handlers; the saved-library
cells use the unit identity. -/
def Promise.reject [Inhabited K] : Promise K V → Error → Promise K V
  | .deferred k, e => .rejected k e
  | .rejected k _, e => .rejected k e
  | _, e => .rejected default e

/-- Modelled from the spec: `defer_default` defers with the default (unit)
identity, as the saved-library cells do. -/
def Promise.deferDefault [Inhabited K] (p : Promise K V) : Promise K V :=
  p.defer default

/-- The identity-gated completion handler pattern shared by
`UPDATE_PLAYLIST_TRACKS` (`delegate.rs:189-199`), `UPDATE_ALBUM_DETAIL`
(`delegate.rs:319-323`), `UPDATE_ARTIST_DETAIL`, `UPDATE_ARTIST_ALBUMS`,
`UPDATE_ARTIST_TOP_TRACKS` and `UPDATE_ARTIST_RELATED`
(`delegate.rs:374-399`): the completion is applied only when the cell is
still deferred for the completion's identity, and is dropped otherwise. -/
def updateDeferred [DecidableEq K] (cell : Promise K V) (link : K)
    (result : Except Error V) : Promise K V :=
  if cell.isDeferred link then cell.resolveOrReject result else cell

/-- The search results payload (`data::SearchResults`): the query it answers
together with the found items (kept opaque here). -/
structure SearchResults where
  query : String
  items : List String
deriving DecidableEq

/-- `Delegate::command_search`, `UPDATE_SEARCH_RESULTS` arm
(`delegate.rs:421-423`): the completion result is applied to the search cell
unconditionally — unlike every other completion handler there is no
`is_deferred` identity check. -/
def updateSearchResults (cell : Promise String SearchResults)
    (result : Except Error SearchResults) : Promise String SearchResults :=
  cell.resolveOrReject result

/-! ## The API client: rate-limit retry, pagination, cached GET
(`webapi/client.rs`) -/

/-- An HTTP response as the retry loop inspects it: its status code, its
optional `Retry-After` header, and its raw body bytes. -/
structure HttpResponse where
  status : Nat
  retryAfter : Option String
  body : List Nat
deriving DecidableEq

/-- Rust `str::parse::<u64>` as `with_retry` applies it to the `Retry-After`
header (`client.rs:82-85`): an optional leading `+` sign, then one or more
ASCII digits, and the value must fit in 64 bits. -/
def parseU64 (s : String) : Option Nat :=
  let ds := match s.data with
    | '+' :: rest => rest
    | cs => cs
  if ds ≠ [] ∧ ds.all (fun c => c.isDigit) then
    let v := ds.foldl (fun acc c => acc * 10 + (c.toNat - 48)) 0
    if v < 2 ^ 64 then some v else none
  else none

/-- The sleep duration of one 429 iteration (`client.rs:82-85`): the parsed
`Retry-After` header, or 2 seconds when the header is absent or
unparseable. -/
def retryAfterSecs (response : HttpResponse) : Nat :=
  ((response.retryAfter).bind parseU64).getD 2

/-- `WebApi::with_retry` (`client.rs:77-93`).  The request function `f` is
modelled by the sequence of its outcomes, one per attempt; a transport error
from `f` propagates immediately (the `?` on `f()`), a 429 response causes a
sleep of `retryAfterSecs` and a resend, and any other response breaks the
loop.  The source loop is unbounded, so the model takes fuel; `none` means
the fuel ran out with the loop still retrying.  On `some (delays, r)`,
`delays` lists the sleeps performed in order and `r` is the surfaced
outcome. -/
def withRetryGo (f : Nat → Except Error HttpResponse) :
    Nat → Nat → List Nat → Option (List Nat × Except Error HttpResponse)
  | 0, _, _ => none
  | fuel + 1, attempt, delays =>
    match f attempt with
    | .error e => some (delays, .error e)
    | .ok response =>
      if response.status = 429 then
        withRetryGo f fuel (attempt + 1) (delays ++ [retryAfterSecs response])
      else
        some (delays, .ok response)

/-- `WebApi::with_retry` from the first attempt with no sleeps performed. -/
def with_retry (f : Nat → Except Error HttpResponse) (fuel : Nat) :
    Option (List Nat × Except Error HttpResponse) :=
  withRetryGo f fuel 0 []

/-- One page of a paginated result set (`data::Page`): `items`, the
server-reported `total`, `limit` and `offset`. -/
structure Page (T : Type) where
  items : List T
  total : Nat
  limit : Nat
  offset : Nat

/-- `PAGED_ITEMS_LIMIT` (`client.rs:143`): the hard cap on aggregated
items. -/
def PAGED_ITEMS_LIMIT : Nat := 200

/-- The loop of `WebApi::load_all_pages` (`client.rs:148-163`).  `fetch`
models one page request: given the `limit` and `offset` query parameters it
yields the server's page or an error (the error of `self.load(req)?`
propagates).  After appending a page's items, the loop continues iff the
reported total exceeds the aggregated count and the count is below the cap,
taking the next limit from the server-reported `limit` and the next offset
as the reported `offset + limit`.  Fuel bounds the unbounded source loop
(`none` = fuel exhausted); on success the aggregated items are returned with
the number of page fetches performed. -/
def loadAllPagesGo (fetch : Nat → Nat → Except Error (Page T)) :
    Nat → Nat → Nat → List T → Nat → Option (Except Error (List T × Nat))
  | 0, _, _, _, _ => none
  | fuel + 1, limit, offset, results, fetches =>
    match fetch limit offset with
    | .error e => some (.error e)
    | .ok page =>
      let results := results ++ page.items
      if page.total > results.length ∧ results.length < PAGED_ITEMS_LIMIT then
        loadAllPagesGo fetch fuel page.limit (page.offset + page.limit)
          results (fetches + 1)
      else
        some (.ok (results, fetches + 1))

/-- `WebApi::load_all_pages` (`client.rs:137-165`): the loop starts with
`limit = 50`, `offset = 0` and an empty accumulator. -/
def load_all_pages (fetch : Nat → Nat → Except Error (Page T)) (fuel : Nat) :
    Option (Except Error (List T × Nat)) :=
  loadAllPagesGo fetch fuel 50 0 [] 0

/-- A simulated paginated source holding `total` items (the numbers
`0, …, total - 1`): a request for `(limit, offset)` returns the items in
`[offset, offset + limit)` and echoes the requested `limit`/`offset`, as the
spec's pagination scenario assumes. -/
def pagedServer (total : Nat) (limit offset : Nat) : Except Error (Page Nat) :=
  .ok { items := ((List.range total).drop offset).take limit,
        total := total, limit := limit, offset := offset }

/-! ### The Disk Cache and `load_cached` -/

/-- Modelled from the spec: the Disk Cache (`WebApiCache`,
`webapi/cache.rs`, not among the provided files): a persistent key-value
store mapping `(bucket, key)` to raw bytes plus a modification timestamp
(spec §3, §4.2). -/
abbrev DiskCache : Type := List ((String × String) × (List Nat × Nat))

/-- Modelled from the spec: the empty Disk Cache. -/
def DiskCache.empty : DiskCache := []

/-- Modelled from the spec: `get(bucket, key)` returns the stored blob and
its timestamp if present; absence is not an error (spec §4.2). -/
def DiskCache.get (c : DiskCache) (bucket key : String) :
    Option (List Nat × Nat) :=
  (c.find? (fun e => decide (e.1 = (bucket, key)))).map (fun e => e.2)

/-- Modelled from the spec: `set(bucket, key, bytes)` persists/overwrites
the entry (spec §4.2); the filesystem's modification time — standing in for
fetch time — is the `now` argument. -/
def DiskCache.set (c : DiskCache) (bucket key : String) (bytes : List Nat)
    (now : Nat) : DiskCache :=
  ((bucket, key), (bytes, now)) ::
    c.filter (fun e => !decide (e.1 = (bucket, key)))

/-- A value tagged with provenance (`data::Cached`): `Fresh` (just fetched)
or `Cached(timestamp)` (served from the Disk Cache, annotated with the
entry's last-modified time). -/
inductive Cached (V : Type) where
  | fresh (v : V)
  | cached (v : V) (at_ : Nat)
deriving DecidableEq

/-- `WebApi::load_cached` (`client.rs:111-133`).  On a cache hit the cached
bytes are deserialized and returned tagged `Cached(modified_time)`; no
request is sent.  On a miss the request is sent through `with_retry`
(modelled by `respond` and `fuel`), the body is captured, deserialized, and
— on success — written to the cache before the value is returned tagged
`Fresh`.  The returned triple is (outcome, cache afterwards, whether a
network request was sent); `none` = the retry loop ran out of fuel. -/
def load_cached (deser : List Nat → Except Error V) (cache : DiskCache)
    (bucket key : String) (respond : Nat → Except Error HttpResponse)
    (fuel : Nat) (now : Nat) :
    Option (Except Error (Cached V) × DiskCache × Bool) :=
  match cache.get bucket key with
  | some (bytes, cachedAt) =>
    match deser bytes with
    | .ok value => some (.ok (.cached value cachedAt), cache, false)
    | .error e => some (.error e, cache, false)
  | none =>
    match with_retry respond fuel with
    | none => none
    | some (_, .error e) => some (.error e, cache, true)
    | some (_, .ok response) =>
      let body := response.body
      match deser body with
      | .ok value =>
        some (.ok (.fresh value), cache.set bucket key body now, true)
      | .error e => some (.error e, cache, true)

/-! ## The Memory Cache (image LRU cache) and the dispatch coordinator
(`delegate.rs`) -/

/-- Decoded image data (`druid::ImageBuf`), kept opaque. -/
structure ImageBuf where
  bytes : List Nat
deriving DecidableEq

/-- Modelled from the spec: the Memory Cache (the external
`lru_cache::LruCache` owned by `Delegate`): a bounded recency-ordered cache;
entries are kept most-recently-used first (spec §3, §4.3). -/
structure LruCache (K V : Type) where
  capacity : Nat
  entries : List (K × V)
deriving DecidableEq

/-- Modelled from the spec: an empty cache of the given capacity
(`LruCache::new`). -/
def LruCache.new (cap : Nat) : LruCache K V := ⟨cap, []⟩

/-- The stored value for a key, without promoting it. -/
def LruCache.lookup [DecidableEq K] (c : LruCache K V) (k : K) : Option V :=
  (c.entries.find? (fun e => decide (e.1 = k))).map (fun e => e.2)

/-- Modelled from the spec: `get(locator)` returns the entry and promotes it
to most-recently-used on a hit; a miss returns nothing and leaves the cache
unchanged (spec §4.3). -/
def LruCache.get [DecidableEq K] (c : LruCache K V) (k : K) :
    Option V × LruCache K V :=
  match c.lookup k with
  | some v =>
    (some v, ⟨c.capacity, (k, v) :: c.entries.filter (fun e => !decide (e.1 = k))⟩)
  | none => (none, c)

/-- Modelled from the spec: `insert(locator, data)` inserts as
most-recently-used, evicting the least-recently-used entry if the cache is
at capacity (spec §4.3); re-inserting an existing key replaces its entry
without evicting. -/
def LruCache.insert [DecidableEq K] (c : LruCache K V) (k : K) (v : V) :
    LruCache K V :=
  let without := c.entries.filter (fun e => !decide (e.1 = k))
  let trimmed := if c.capacity ≤ without.length then without.dropLast else without
  ⟨c.capacity, (k, v) :: trimmed⟩

/-- `IMAGE_CACHE_SIZE` (`delegate.rs:23`): the image cache holds at most 256
entries. -/
def IMAGE_CACHE_SIZE : Nat := 256

/-- `Delegate::new` (`delegate.rs:21-31`): the delegate starts with an empty
LRU image cache of capacity `IMAGE_CACHE_SIZE`. -/
def newImageCache : LruCache Nat ImageBuf := LruCache.new IMAGE_CACHE_SIZE

/-- What a spawned background worker does once its fetch finishes: deliver a
completion message through the sink, or panic (crashing the worker
thread). -/
inductive WorkerOutcome (M : Type) where
  | delivered (msg : M)
  | panicked
deriving DecidableEq

/-- The background closure of `Delegate::command_image`
(`delegate.rs:146-157`): the spawned worker calls
`WebApi::global().get_image(..).unwrap()` — a successful image is wrapped
into a payload and submitted, but a fetch error panics the worker thread;
no completion message of any kind is delivered on error. -/
def imageWorker (location : String) (fetchResult : Except Error ImageBuf) :
    WorkerOutcome (String × ImageBuf) :=
  match fetchResult with
  | .ok dynImage => .delivered (location, dynImage)
  | .error _ => .panicked

/-- The background closure of `Delegate::command_playlist`'s
`LOAD_PLAYLIST_DETAIL` arm (`delegate.rs:183-187`): the fetch result — ok or
error — is submitted as an `UPDATE_PLAYLIST_TRACKS` completion message; the
worker never panics on a fetch error. -/
def playlistWorker (link : K) (result : Except Error V) :
    WorkerOutcome (K × Except Error V) :=
  .delivered (link, result)

/-! ### `Delegate::command_artist`: the LOAD_ARTIST_DETAIL fan-out -/

/-- The artist portion of the state tree (`data.artist`): one Async Cell per
aspect, all keyed by the artist link. -/
structure ArtistDetailState (K A T R L : Type) where
  artist : Promise K A
  topTracks : Promise K T
  relatedArtists : Promise K R
  albums : Promise K L
deriving DecidableEq

/-- One background fetch dispatched by the LOAD_ARTIST_DETAIL arm, with the
identity it will report back. -/
inductive ArtistFetch (K : Type) where
  | detail (k : K)
  | topTracks (k : K)
  | related (k : K)
  | albums (k : K)
deriving DecidableEq

/-- `Delegate::command_artist`, `LOAD_ARTIST_DETAIL` arm
(`delegate.rs:336-373`): all four cells are deferred with the intent's link
and four background fetches are spawned, each reporting through its own
completion message. -/
def loadArtistDetail (s : ArtistDetailState K A T R L) (link : K) :
    ArtistDetailState K A T R L × List (ArtistFetch K) :=
  ({ artist := s.artist.defer link,
     topTracks := s.topTracks.defer link,
     relatedArtists := s.relatedArtists.defer link,
     albums := s.albums.defer link },
   [.detail link, .topTracks link, .related link, .albums link])

/-- `UPDATE_ARTIST_DETAIL` arm (`delegate.rs:374-378`): identity-gated
resolution of the artist-detail cell; the other three cells are not
touched. -/
def updateArtistDetail [DecidableEq K] (s : ArtistDetailState K A T R L)
    (link : K) (result : Except Error A) : ArtistDetailState K A T R L :=
  { s with artist := updateDeferred s.artist link result }

/-- `UPDATE_ARTIST_ALBUMS` arm (`delegate.rs:379-383`). -/
def updateArtistAlbums [DecidableEq K] (s : ArtistDetailState K A T R L)
    (link : K) (result : Except Error L) : ArtistDetailState K A T R L :=
  { s with albums := updateDeferred s.albums link result }

/-- `UPDATE_ARTIST_TOP_TRACKS` arm (`delegate.rs:384-394`). -/
def updateArtistTopTracks [DecidableEq K] (s : ArtistDetailState K A T R L)
    (link : K) (result : Except Error T) : ArtistDetailState K A T R L :=
  { s with topTracks := updateDeferred s.topTracks link result }

/-- `UPDATE_ARTIST_RELATED` arm (`delegate.rs:395-399`). -/
def updateArtistRelated [DecidableEq K] (s : ArtistDetailState K A T R L)
    (link : K) (result : Except Error R) : ArtistDetailState K A T R L :=
  { s with relatedArtists := updateDeferred s.relatedArtists link result }

/-! ### `Delegate::command_library`: saved tracks/albums -/

/-- `Delegate::command_library`, `LOAD_SAVED_TRACKS` arm
(`delegate.rs:212-222`): a fetch is dispatched — the cell deferred (unit
identity) and a background task spawned — only when the cell is currently
empty or rejected; otherwise the intent is consumed with no change.  The
returned flag says whether a fetch was spawned. -/
def handleLoadSavedTracks [Inhabited K] (cell : Promise K V) :
    Promise K V × Bool :=
  if cell.isEmpty || cell.isRejected then (cell.deferDefault, true)
  else (cell, false)

/-- `Delegate::command_library`, `LOAD_SAVED_ALBUMS` arm
(`delegate.rs:223-233`): the same dispatch guard as for saved tracks. -/
def handleLoadSavedAlbums [Inhabited K] (cell : Promise K V) :
    Promise K V × Bool :=
  if cell.isEmpty || cell.isRejected then (cell.deferDefault, true)
  else (cell, false)

/-- The consumer-visible saved-library state the save/unsave intents
mutate: the locally tracked sets of saved track and album ids. -/
structure LibraryState where
  savedTracks : List String
  savedAlbums : List String
deriving DecidableEq

/-- Modelled from the spec: `State::save_track` (in the data layer, not
among the provided files) applies the local optimistic change — the track
joins the local saved set (spec §7). -/
def saveTrackLocal (s : LibraryState) (trackId : String) : LibraryState :=
  { s with savedTracks := trackId :: s.savedTracks }

/-- Modelled from the spec: `State::unsave_track` removes the track from the
local saved set (spec §7). -/
def unsaveTrackLocal (s : LibraryState) (trackId : String) : LibraryState :=
  { s with savedTracks := s.savedTracks.filter (fun x => !decide (x = trackId)) }

/-- Modelled from the spec: `State::save_album` adds the album to the local
saved set (spec §7). -/
def saveAlbumLocal (s : LibraryState) (albumId : String) : LibraryState :=
  { s with savedAlbums := albumId :: s.savedAlbums }

/-- Modelled from the spec: `State::unsave_album` removes the album from the
local saved set (spec §7). -/
def unsaveAlbumLocal (s : LibraryState) (albumId : String) : LibraryState :=
  { s with savedAlbums := s.savedAlbums.filter (fun x => !decide (x = albumId)) }

/-- `Delegate::command_library`, `SAVE_TRACK` arm (`delegate.rs:260-269`):
the local optimistic change is applied immediately when the intent is
handled, then a background remote call is spawned (flag: spawned). -/
def handleSaveTrack (s : LibraryState) (trackId : String) :
    LibraryState × Bool :=
  (saveTrackLocal s trackId, true)

/-- `Delegate::command_library`, `UNSAVE_TRACK` arm
(`delegate.rs:270-278`). -/
def handleUnsaveTrack (s : LibraryState) (trackId : String) :
    LibraryState × Bool :=
  (unsaveTrackLocal s trackId, true)

/-- `Delegate::command_library`, `SAVE_ALBUM` arm (`delegate.rs:279-288`). -/
def handleSaveAlbum (s : LibraryState) (albumId : String) :
    LibraryState × Bool :=
  (saveAlbumLocal s albumId, true)

/-- `Delegate::command_library`, `UNSAVE_ALBUM` arm
(`delegate.rs:289-297`). -/
def handleUnsaveAlbum (s : LibraryState) (albumId : String) :
    LibraryState × Bool :=
  (unsaveAlbumLocal s albumId, true)

/-- The background closure of every save/unsave arm
(`delegate.rs:263-268, 272-277, 282-287, 291-296`): the remote result is
inspected, but nothing is submitted back — on error only a TODO comment
stands; the consumer-visible state is not touched, whatever the outcome. -/
def libraryMutationCompletion (s : LibraryState)
    (_remoteResult : Except Error Unit) : LibraryState :=
  s


/-! ## Concrete scenarios used by the theorems -/

/-- The spec's rate-limit scenario: a simulated endpoint answering 429 with
`Retry-After: 1` twice, then 200. -/
def rateLimitedTwice : Nat → Except Error HttpResponse
  | 0 => .ok ⟨429, some "1", []⟩
  | 1 => .ok ⟨429, some "1", []⟩
  | _ => .ok ⟨200, none, [7]⟩

/-- A server answering every request with 200 and the given body. -/
def okServer (body : List Nat) : Nat → Except Error HttpResponse :=
  fun _ => .ok ⟨200, none, body⟩

/-- A deserializer accepting exactly the body `[1, 2]`. -/
def deserNat : List Nat → Except Error Nat :=
  fun bytes => if bytes = [1, 2] then .ok 42 else .error ⟨"deserialization"⟩

/-- Inserting the distinct locators `0, …, n - 1` in order, with no
intervening gets. -/
def insertSeq (c : LruCache Nat Nat) (n : Nat) : LruCache Nat Nat :=
  (List.range n).foldl (fun c k => c.insert k k) c

/-- The entries of the LRU cache after `insertSeq`: the keys `n - 1, …, 0`,
most recent first. -/
def descPairs (n : Nat) : List (Nat × Nat) :=
  ((List.range n).reverse).map (fun k => (k, k))

/-! ## Theorems -/

/-- C10: for every popularity `0 ≤ p ≤ 100`, `popularity_stars p` is a
string of exactly 5 star characters of which `round (5 * p / 100)` — which
for naturals is `(5 * p + 50) / 100` — are filled (`'★'`) and the remainder
hollow (`'☆'`); the filled count never exceeds 5 under this precondition, so
the `usize` subtraction `COUNT - popular` cannot underflow, while for
`p = 110 > 100` the filled count is 6 and the subtraction would
underflow. -/
theorem popularity_stars_spec :
    (∀ p : Nat, p ≤ 100 →
      popularCount p = (5 * p + 50) / 100 ∧
      popularCount p ≤ 5 ∧
      popularity_stars p =
        ⟨List.replicate ((5 * p + 50) / 100) '★' ++
          List.replicate (5 - (5 * p + 50) / 100) '☆'⟩ ∧
      (popularity_stars p).length = 5) ∧
    popularCount 110 = 6 := by
  constructor
  · decide
  · decide

/-- C1 (the code violates the claim): the identity-gating invariant holds
for the gated completion handlers — after `defer(A)`, `defer(B)` with
`A ≠ B`, a completion carrying `A` is dropped — but the search handler
`UPDATE_SEARCH_RESULTS` applies completions without any identity check, so
the stale completion for query `"a"` overwrites the cell that is pending for
`"b"` (and even a cell already resolved for `"b"`) with `A`'s payload. -/
theorem search_handler_applies_stale_completion :
    (updateDeferred ((Promise.empty : Promise String SearchResults).defer "a" |>.defer "b")
        "a" (.ok ⟨"a", ["hit"]⟩) =
      ((Promise.empty : Promise String SearchResults).defer "a" |>.defer "b")) ∧
    (updateSearchResults ((Promise.empty : Promise String SearchResults).defer "a" |>.defer "b")
        (.ok ⟨"a", ["hit"]⟩) = .resolved ⟨"a", ["hit"]⟩) ∧
    (updateSearchResults (.resolved ⟨"b", ["old"]⟩) (.ok ⟨"a", ["hit"]⟩) =
      .resolved ⟨"a", ["hit"]⟩) := by
  refine ⟨?_, rfl, rfl⟩
  decide

/-- C5 (the code violates the claim): the playlist worker delivers every
fetch outcome — success or typed failure — as a completion message, and the
identity-gated handler then sets the still-pending cell to `Rejected`; but
the image worker `unwrap`s its fetch result, so an image fetch error panics
the background worker thread instead of delivering a failure. -/
theorem image_worker_panics_on_error :
    (imageWorker "https://i.scdn.co/image/x" (.error ⟨"transport failure"⟩) =
      .panicked) ∧
    (imageWorker "https://i.scdn.co/image/x" (.ok ⟨[9]⟩) =
      .delivered ("https://i.scdn.co/image/x", ⟨[9]⟩)) ∧
    (playlistWorker "playlist-1" (.error ⟨"transport failure"⟩ : Except Error Nat) =
      .delivered ("playlist-1", .error ⟨"transport failure"⟩)) ∧
    (updateDeferred ((Promise.empty : Promise String Nat).defer "playlist-1")
        "playlist-1" (.error ⟨"transport failure"⟩) =
      .rejected "playlist-1" ⟨"transport failure"⟩) := by
  refine ⟨rfl, rfl, rfl, ?_⟩
  decide

/-- Helper: the retry loop of `with_retry` never returns a response with
status 429 — a 429 always loops (`client.rs:80-91`). -/
theorem withRetryGo_ok_status_ne (f : Nat → Except Error HttpResponse) :
    ∀ fuel attempt delays ds r,
      withRetryGo f fuel attempt delays = some (ds, .ok r) → r.status ≠ 429 := by
  intro fuel
  induction fuel with
  | zero =>
    intro attempt delays ds r h
    simp [withRetryGo] at h
  | succ n ih =>
    intro attempt delays ds r h
    cases hf : f attempt with
    | error e => simp [withRetryGo, hf] at h
    | ok response =>
      by_cases hs : response.status = 429
      · rw [withRetryGo, hf] at h
        simp only [hs, if_pos] at h
        exact ih _ _ _ _ h
      · rw [withRetryGo, hf] at h
        simp only [if_neg hs, Option.some.injEq, Prod.mk.injEq,
          Except.ok.injEq] at h
        rw [← h.2]
        exact hs

/-- C3: a 429 response is never surfaced: `with_retry` sleeps for the
`Retry-After` seconds (2 when the header is absent or unparseable) and
resends until a non-429 response arrives, which it returns.  In the spec's
scenario — 429 twice with `Retry-After: 1`, then 200 — exactly two delays of
1 second occur and the 200 response is returned; and whatever the endpoint
does, a returned response never has status 429. -/
theorem with_retry_spec :
    (with_retry rateLimitedTwice 10 = some ([1, 1], .ok ⟨200, none, [7]⟩)) ∧
    (retryAfterSecs ⟨429, none, []⟩ = 2 ∧
     retryAfterSecs ⟨429, some "soon", []⟩ = 2 ∧
     retryAfterSecs ⟨429, some "1", []⟩ = 1) ∧
    (∀ (f : Nat → Except Error HttpResponse) (fuel : Nat)
        (delays : List Nat) (r : HttpResponse),
      with_retry f fuel = some (delays, .ok r) → r.status ≠ 429) := by
  refine ⟨by decide, by decide, ?_⟩
  intro f fuel delays r h
  exact withRetryGo_ok_status_ne f fuel 0 [] delays r h

set_option maxRecDepth 4000 in
/-- C2: `load_all_pages` starts at `limit = 50`, `offset = 0`; after each
page it continues exactly when the reported total exceeds the aggregated
count and the count is below the 200-item cap, requesting the next page with
the server-reported limit and with offset = reported offset + reported
limit.  For a source reporting `total = 130` with page size 50, exactly
three fetches occur and the 130 items come back in order; for
`total = 1000`, aggregation stops at the 200-item cap (after the fetch that
reaches it) without fetching further pages. -/
theorem load_all_pages_spec :
    (load_all_pages (pagedServer 130) 10 = some (.ok (List.range 130, 3))) ∧
    (load_all_pages (pagedServer 1000) 10 =
      some (.ok ((List.range 1000).take 200, 4))) ∧
    (∀ (T : Type) (fetch : Nat → Nat → Except Error (Page T)) (fuel : Nat),
      load_all_pages fetch fuel = loadAllPagesGo fetch fuel 50 0 [] 0) ∧
    (∀ (T : Type) (fetch : Nat → Nat → Except Error (Page T))
        (fuel limit offset : Nat) (acc : List T) (n : Nat) (page : Page T),
      fetch limit offset = .ok page →
        loadAllPagesGo fetch (fuel + 1) limit offset acc n =
          if page.total > (acc ++ page.items).length ∧
              (acc ++ page.items).length < PAGED_ITEMS_LIMIT then
            loadAllPagesGo fetch fuel page.limit (page.offset + page.limit)
              (acc ++ page.items) (n + 1)
          else some (.ok (acc ++ page.items, n + 1))) := by
  refine ⟨?_, ?_, fun T fetch fuel => rfl, ?_⟩
  · decide
  · decide
  · intro T fetch fuel limit offset acc n page h
    rw [loadAllPagesGo, h]

/-- C4: `load_cached` on a Disk Cache hit deserializes the cached bytes and
returns them tagged `Cached(modified_time)` with no network request; on a
miss it sends the request through the retry loop, writes the body to the
cache, and returns the value tagged `Fresh`.  In the spec's scenario, a
first call on the empty cache returns `Fresh` having fetched, and a second
call for the same key returns `Cached` with the first call's write timestamp
and no network request. -/
theorem load_cached_spec :
    (∀ (V : Type) (deser : List Nat → Except Error V) (cache : DiskCache)
        (bucket key : String) (respond : Nat → Except Error HttpResponse)
        (fuel now : Nat) (bytes : List Nat) (mtime : Nat) (v : V),
      cache.get bucket key = some (bytes, mtime) → deser bytes = .ok v →
        load_cached deser cache bucket key respond fuel now =
          some (.ok (.cached v mtime), cache, false)) ∧
    (∀ (V : Type) (deser : List Nat → Except Error V) (cache : DiskCache)
        (bucket key : String) (respond : Nat → Except Error HttpResponse)
        (fuel now : Nat) (ds : List Nat) (resp : HttpResponse) (v : V),
      cache.get bucket key = none →
        with_retry respond fuel = some (ds, .ok resp) →
        deser resp.body = .ok v →
        load_cached deser cache bucket key respond fuel now =
          some (.ok (.fresh v), cache.set bucket key resp.body now, true)) ∧
    (load_cached deserNat DiskCache.empty "album" "k1" (okServer [1, 2]) 1 5 =
      some (.ok (.fresh 42), DiskCache.empty.set "album" "k1" [1, 2] 5, true)) ∧
    (load_cached deserNat (DiskCache.empty.set "album" "k1" [1, 2] 5) "album"
        "k1" (okServer [1, 2]) 1 9 =
      some (.ok (.cached 42 5), DiskCache.empty.set "album" "k1" [1, 2] 5,
        false)) := by
  refine ⟨?_, ?_, rfl, rfl⟩
  · intro V deser cache bucket key respond fuel now bytes mtime v h1 h2
    simp only [load_cached, h1, h2]
  · intro V deser cache bucket key respond fuel now ds resp v h1 h2 h3
    simp only [load_cached, h1, h2, h3]

/-- Helper: every entry of `descPairs n` has its key below `n`. -/
theorem descPairs_key_lt {n : Nat} {p : Nat × Nat} (h : p ∈ descPairs n) :
    p.1 < n := by
  simp only [descPairs, List.mem_map, List.mem_reverse, List.mem_range] at h
  obtain ⟨k, hk, rfl⟩ := h
  exact hk

/-- Helper: `descPairs (n + 1)` has the newest key in front. -/
theorem descPairs_succ (n : Nat) :
    descPairs (n + 1) = (n, n) :: descPairs n := by
  simp [descPairs, List.range_succ]

/-- Helper: `descPairs (n + 1)` is nonempty. -/
theorem descPairs_ne_nil (n : Nat) : descPairs (n + 1) ≠ [] := by
  rw [descPairs_succ]
  exact List.cons_ne_nil _ _

/-- Helper: `descPairs n` has `n` entries. -/
theorem descPairs_length (n : Nat) : (descPairs n).length = n := by
  simp [descPairs]

/-- Helper: filtering out a key at least `n` leaves `descPairs n`
unchanged. -/
theorem descPairs_filter {n m : Nat} (h : n ≤ m) :
    (descPairs n).filter (fun e => !decide (e.1 = m)) = descPairs n := by
  apply List.filter_eq_self.mpr
  intro p hp
  have hlt := descPairs_key_lt hp
  simp only [Bool.not_eq_true', decide_eq_false_iff_not]
  omega

/-- Helper: `insertSeq` peels off its last insert. -/
theorem insertSeq_succ (c : LruCache Nat Nat) (n : Nat) :
    insertSeq c (n + 1) = (insertSeq c n).insert n n := by
  simp [insertSeq, List.range_succ]

/-- Helper: a fresh cache's capacity. -/
theorem lruNew_capacity (cap : Nat) :
    (LruCache.new cap : LruCache Nat Nat).capacity = cap := rfl

/-- Helper: inserting never changes the capacity. -/
theorem insertSeq_capacity (c : LruCache Nat Nat) (n : Nat) :
    (insertSeq c n).capacity = c.capacity := by
  induction n with
  | zero => rfl
  | succ n ih => rw [insertSeq_succ]; exact ih

/-- Helper: inserting `n ≤ capacity` distinct fresh locators fills the cache
with exactly those entries, most recent first, evicting nothing. -/
theorem insertSeq_entries :
    ∀ n, n ≤ IMAGE_CACHE_SIZE →
      (insertSeq (LruCache.new IMAGE_CACHE_SIZE) n).entries = descPairs n := by
  intro n
  induction n with
  | zero => intro _; rfl
  | succ n ih =>
    intro hn
    have hn' : n ≤ IMAGE_CACHE_SIZE := Nat.le_of_succ_le hn
    have hcap : (insertSeq (LruCache.new IMAGE_CACHE_SIZE) n).capacity =
        IMAGE_CACHE_SIZE := insertSeq_capacity _ _
    rw [insertSeq_succ, LruCache.insert]
    simp only [ih hn', descPairs_filter (Nat.le_refl n), hcap,
      descPairs_length]
    rw [if_neg (by omega), descPairs_succ]

/-- Helper: the 257th insert evicts exactly the least-recently-used entry
(the key 0). -/
theorem insertSeq_succ_capacity_entries :
    (insertSeq (LruCache.new IMAGE_CACHE_SIZE) (IMAGE_CACHE_SIZE + 1)).entries =
      (IMAGE_CACHE_SIZE, IMAGE_CACHE_SIZE) :: (descPairs IMAGE_CACHE_SIZE).dropLast := by
  rw [insertSeq_succ, LruCache.insert]
  simp only [insertSeq_entries IMAGE_CACHE_SIZE (Nat.le_refl _),
    descPairs_filter (Nat.le_refl IMAGE_CACHE_SIZE),
    insertSeq_capacity, lruNew_capacity, descPairs_length]
  rw [if_pos (Nat.le_refl _)]

/-- Helper: dropping the last (least recent) entry of `descPairs` removes
the key 0: every remaining key is at least 1. -/
theorem mem_dropLast_descPairs :
    ∀ n, ∀ p ∈ (descPairs n).dropLast, 1 ≤ p.1 := by
  intro n
  induction n with
  | zero => intro p hp; simp [descPairs] at hp
  | succ n ih =>
    intro p hp
    rw [descPairs_succ] at hp
    cases n with
    | zero => simp [descPairs] at hp
    | succ m =>
      rw [List.dropLast_cons_of_ne_nil (descPairs_ne_nil m)] at hp
      rcases List.mem_cons.mp hp with h | h
      · rw [h]; exact Nat.le_add_left 1 m
      · exact ih p h

/-- C6: for the Memory Cache at its fixed capacity 256 (`IMAGE_CACHE_SIZE`,
`Delegate::new`): `get` returns the stored value and promotes the entry on a
hit, returns nothing and changes nothing on a miss; `insert` of a fresh key
at capacity evicts exactly the least-recently-used entry; hence inserting
257 distinct locators (no intervening gets) makes the first-inserted locator
a miss and the most-recently-inserted one a hit. -/
theorem lru_cache_spec :
    (((insertSeq (LruCache.new IMAGE_CACHE_SIZE) (IMAGE_CACHE_SIZE + 1)).get 0).1 =
      none) ∧
    (((insertSeq (LruCache.new IMAGE_CACHE_SIZE) (IMAGE_CACHE_SIZE + 1)).get
        IMAGE_CACHE_SIZE).1 = some IMAGE_CACHE_SIZE) ∧
    (newImageCache.capacity = 256 ∧ newImageCache.entries = []) ∧
    (∀ (K V : Type) [_inst : DecidableEq K] (c : LruCache K V) (k : K),
      c.lookup k = none → c.get k = (none, c)) ∧
    (∀ (K V : Type) [_inst : DecidableEq K] (c : LruCache K V) (k : K) (v : V),
      c.lookup k = some v →
        c.get k = (some v,
          ⟨c.capacity, (k, v) :: c.entries.filter (fun e => !decide (e.1 = k))⟩)) ∧
    (∀ (K V : Type) [_inst : DecidableEq K] (c : LruCache K V) (k : K) (v : V),
      c.lookup k = none → c.entries.length = c.capacity →
        (c.insert k v).entries = (k, v) :: c.entries.dropLast) := by
  refine ⟨?_, ?_, ⟨rfl, rfl⟩, ?_, ?_, ?_⟩
  · rw [LruCache.get, LruCache.lookup, insertSeq_succ_capacity_entries]
    rw [List.find?_eq_none.mpr ?_]
    · rfl
    · intro p hp
      rcases List.mem_cons.mp hp with h | h
      · rw [h]; simp [IMAGE_CACHE_SIZE]
      · have := mem_dropLast_descPairs IMAGE_CACHE_SIZE p h
        simp only [decide_eq_true_eq]
        omega
  · rw [LruCache.get, LruCache.lookup, insertSeq_succ_capacity_entries]
    rw [List.find?_cons_of_pos _ (by simp)]
    rfl
  · intro K V inst c k h
    simp only [LruCache.get, h]
  · intro K V inst c k v h
    simp only [LruCache.get, h]
  · intro K V inst c k v h hlen
    rw [LruCache.lookup] at h
    have hfind : c.entries.find? (fun e => decide (e.1 = k)) = none :=
      Option.map_eq_none.mp h
    have hfilter : c.entries.filter (fun e => !decide (e.1 = k)) = c.entries := by
      apply List.filter_eq_self.mpr
      intro p hp
      have hecons := List.find?_eq_none.mp hfind p hp
      simpa using hecons
    simp only [LruCache.insert, hfilter, hlen]
    rw [if_pos (Nat.le_refl _)]

/-- C7: handling a `LOAD_ARTIST_DETAIL` intent defers exactly the four
artist cells — detail, top tracks, related artists, albums — to the intent's
link and dispatches four independent background fetches, one per aspect;
each completion handler touches only its own cell, so the failure of any one
fetch leaves the state produced by the other three completions unchanged. -/
theorem artist_fanout_spec :
    (∀ (K A T R L : Type) (s : ArtistDetailState K A T R L) (link : K),
      loadArtistDetail s link =
        ({ artist := .deferred link, topTracks := .deferred link,
           relatedArtists := .deferred link, albums := .deferred link },
         [.detail link, .topTracks link, .related link, .albums link])) ∧
    (∀ (K A T R L : Type) [_inst : DecidableEq K]
        (s : ArtistDetailState K A T R L) (link : K) (r : Except Error A),
      (updateArtistDetail s link r).topTracks = s.topTracks ∧
      (updateArtistDetail s link r).relatedArtists = s.relatedArtists ∧
      (updateArtistDetail s link r).albums = s.albums) ∧
    (∀ (K A T R L : Type) [_inst : DecidableEq K]
        (s : ArtistDetailState K A T R L) (link : K) (r : Except Error T),
      (updateArtistTopTracks s link r).artist = s.artist ∧
      (updateArtistTopTracks s link r).relatedArtists = s.relatedArtists ∧
      (updateArtistTopTracks s link r).albums = s.albums) ∧
    (∀ (K A T R L : Type) [_inst : DecidableEq K]
        (s : ArtistDetailState K A T R L) (link : K) (r : Except Error R),
      (updateArtistRelated s link r).artist = s.artist ∧
      (updateArtistRelated s link r).topTracks = s.topTracks ∧
      (updateArtistRelated s link r).albums = s.albums) ∧
    (∀ (K A T R L : Type) [_inst : DecidableEq K]
        (s : ArtistDetailState K A T R L) (link : K) (r : Except Error L),
      (updateArtistAlbums s link r).artist = s.artist ∧
      (updateArtistAlbums s link r).topTracks = s.topTracks ∧
      (updateArtistAlbums s link r).relatedArtists = s.relatedArtists) := by
  exact ⟨fun K A T R L s link => rfl,
    fun K A T R L _ s link r => ⟨rfl, rfl, rfl⟩,
    fun K A T R L _ s link r => ⟨rfl, rfl, rfl⟩,
    fun K A T R L _ s link r => ⟨rfl, rfl, rfl⟩,
    fun K A T R L _ s link r => ⟨rfl, rfl, rfl⟩⟩

/-- C8: every save/unsave intent applies its local optimistic change to the
saved set immediately when the intent is handled, spawning the remote call
afterwards; and the worker's completion step never mutates consumer-visible
state, so a remote failure leaves the optimistic change in place. -/
theorem save_unsave_optimistic_spec :
    (∀ (s : LibraryState) (trackId : String),
      (handleSaveTrack s trackId).1.savedTracks = trackId :: s.savedTracks ∧
      (handleSaveTrack s trackId).1.savedAlbums = s.savedAlbums ∧
      (handleSaveTrack s trackId).2 = true) ∧
    (∀ (s : LibraryState) (trackId : String),
      (handleUnsaveTrack s trackId).1.savedTracks =
        s.savedTracks.filter (fun x => !decide (x = trackId)) ∧
      (handleUnsaveTrack s trackId).1.savedAlbums = s.savedAlbums ∧
      (handleUnsaveTrack s trackId).2 = true) ∧
    (∀ (s : LibraryState) (albumId : String),
      (handleSaveAlbum s albumId).1.savedAlbums = albumId :: s.savedAlbums ∧
      (handleSaveAlbum s albumId).1.savedTracks = s.savedTracks ∧
      (handleSaveAlbum s albumId).2 = true) ∧
    (∀ (s : LibraryState) (albumId : String),
      (handleUnsaveAlbum s albumId).1.savedAlbums =
        s.savedAlbums.filter (fun x => !decide (x = albumId)) ∧
      (handleUnsaveAlbum s albumId).1.savedTracks = s.savedTracks ∧
      (handleUnsaveAlbum s albumId).2 = true) ∧
    (∀ (s : LibraryState) (remoteResult : Except Error Unit),
      libraryMutationCompletion s remoteResult = s) := by
  exact ⟨fun s i => ⟨rfl, rfl, rfl⟩, fun s i => ⟨rfl, rfl, rfl⟩,
    fun s i => ⟨rfl, rfl, rfl⟩, fun s i => ⟨rfl, rfl, rfl⟩,
    fun s r => rfl⟩

/-- C9: a `LOAD_SAVED_TRACKS` / `LOAD_SAVED_ALBUMS` intent dispatches a new
fetch — the cell becomes pending (default identity) and a background task is
spawned — exactly when the cell is currently empty or rejected; a pending or
resolved cell consumes the intent without changing the cell or spawning
anything. -/
theorem load_saved_gating_spec :
    (∀ (K V : Type) [_inst : Inhabited K] (k : K),
      handleLoadSavedTracks (Promise.deferred k : Promise K V) =
        (.deferred k, false)) ∧
    (∀ (K V : Type) [_inst : Inhabited K] (v : V),
      handleLoadSavedTracks (Promise.resolved v : Promise K V) =
        (.resolved v, false)) ∧
    (∀ (K V : Type) [_inst : Inhabited K],
      handleLoadSavedTracks (Promise.empty : Promise K V) =
        (.deferred default, true)) ∧
    (∀ (K V : Type) [_inst : Inhabited K] (k : K) (e : Error),
      handleLoadSavedTracks (Promise.rejected k e : Promise K V) =
        (.deferred default, true)) ∧
    (∀ (K V : Type) [_inst : Inhabited K] (k : K),
      handleLoadSavedAlbums (Promise.deferred k : Promise K V) =
        (.deferred k, false)) ∧
    (∀ (K V : Type) [_inst : Inhabited K] (v : V),
      handleLoadSavedAlbums (Promise.resolved v : Promise K V) =
        (.resolved v, false)) ∧
    (∀ (K V : Type) [_inst : Inhabited K],
      handleLoadSavedAlbums (Promise.empty : Promise K V) =
        (.deferred default, true)) ∧
    (∀ (K V : Type) [_inst : Inhabited K] (k : K) (e : Error),
      handleLoadSavedAlbums (Promise.rejected k e : Promise K V) =
        (.deferred default, true)) := by
  exact ⟨fun K V _ k => rfl, fun K V _ v => rfl, fun K V _ => rfl,
    fun K V _ k e => rfl, fun K V _ k => rfl, fun K V _ v => rfl,
    fun K V _ => rfl, fun K V _ k e => rfl⟩

end Psst
